import Mathlib

/-!
Verification of the admission-system backend (src/API_371db/app.py): the
credential/session manager (register, authenticate, token mint/resolve) and
the sequential exam-roll allocator (create_admit_card), shallowly embedded as
executable Lean functions over explicit database state.  Time is modelled in
seconds as a natural number; the MySQL tables are modelled as Lean lists of
rows in insertion order.
-/

namespace AdmissionDB

/-- Row of the `applicant_login` table: the credential record — email,
password digest, and last-login timestamp (None until the first login). -/
structure LoginRow where
  email : String
  password_hash : String
  last_login : Option Nat
deriving DecidableEq, Repr

/-- Row of the `applicant_info` table (the fields the session core reads:
the auto-increment id, the email used as the token subject, a name field
standing for the remaining profile columns). -/
structure InfoRow where
  applicant_id : Nat
  email : String
  first_name : String
deriving DecidableEq, Repr

/-- The state the session manager touches: `applicant_info` and
`applicant_login` tables. -/
structure AuthDB where
  infos : List InfoRow
  logins : List LoginRow
deriving DecidableEq, Repr

/-- An HTTPException as raised by the endpoints: status code and detail. -/
structure HTTPError where
  status_code : Nat
  detail : String
deriving DecidableEq, Repr

/-- Modelled from the spec: `hashlib.sha256(...).hexdigest()` — the library
is not under src/; the spec requires only a deterministic one-way digest, so
the digest body is abstracted to a deterministic tagging injection. -/
def sha256_hexdigest (s : String) : String := "sha256-" ++ s

/-- get_password_hash from app.py line 205. -/
def get_password_hash (password : String) : String := sha256_hexdigest password

/-- verify_password from app.py line 209: digest the plain password and
compare for equality with the stored digest. -/
def verify_password (plain_password hashed_password : String) : Bool :=
  get_password_hash plain_password == hashed_password

/-- `SELECT * FROM applicant_login WHERE email = ...` with `fetchone`. -/
def find_login (db : AuthDB) (email : String) : Option LoginRow :=
  db.logins.find? (fun l => l.email == email)

/-- `SELECT * FROM applicant_info WHERE email = ...` with `fetchone`. -/
def find_info (db : AuthDB) (email : String) : Option InfoRow :=
  db.infos.find? (fun r => r.email == email)

/-- `UPDATE applicant_login SET last_login = NOW() WHERE email = ...`. -/
def update_last_login (db : AuthDB) (email : String) (now : Nat) : AuthDB :=
  { db with
    logins := db.logins.map (fun l =>
      if l.email == email then { l with last_login := some now } else l) }

/-- authenticate_user from app.py lines 213-235: look up the credential by
email; if absent or the digest mismatches, return False (here `none`);
otherwise update and commit last_login, then fetch and return the
applicant_info row (which the source does not check for absence).  The
second component is the committed database state. -/
def authenticate_user (db : AuthDB) (now : Nat) (email password : String) :
    Option InfoRow × AuthDB :=
  match find_login db email with
  | none => (none, db)
  | some user =>
    if verify_password password user.password_hash then
      let db1 := update_last_login db email now
      (find_info db1 email, db1)
    else
      (none, db)

/-- SECRET_KEY from app.py line 41 (environment default). -/
def SECRET_KEY : String := "your-secret-key"

/-- ACCESS_TOKEN_EXPIRE_MINUTES from app.py line 43. -/
def ACCESS_TOKEN_EXPIRE_MINUTES : Nat := 30

/-- JWT claim set produced by create_access_token: the subject claim (absent
if the caller supplied no "sub" key) and the expiry instant. -/
structure Payload where
  sub : Option String
  exp : Nat
deriving DecidableEq, Repr

/-- Deterministic accumulator over the characters of a string, the raw
material of the modelled MAC. -/
def str_code (s : String) : Nat :=
  s.data.foldl (fun a c => a * 131 + c.toNat) 5381

/-- Modelled from the spec: the PyJWT HS256 signature over the payload keyed
by the server secret — the library is not under src/; the spec requires only
a deterministic tamper-evident MAC keyed by a server-held secret. -/
def jwt_sign (key : String) (p : Payload) : Nat :=
  str_code key * 1000003 + str_code (p.sub.getD "") * 31 + p.exp

/-- A JWT as a signed payload. -/
structure JwtToken where
  payload : Payload
  sig : Nat
deriving DecidableEq, Repr

/-- `jwt.encode(payload, key, HS256)`. -/
def jwt_encode (p : Payload) (key : String) : JwtToken :=
  { payload := p, sig := jwt_sign key p }

/-- The two PyJWT failure modes get_current_user can hit: an expired `exp`
claim (ExpiredSignatureError) and a failed integrity check
(InvalidSignatureError); both are subclasses of PyJWTError. -/
inductive JwtError
  | expired
  | invalid
deriving DecidableEq, Repr

/-- Modelled from the spec: `jwt.decode(token, key, HS256)` — verify the MAC,
then reject the token when now is at or past the `exp` instant, else return
the claim set. -/
def jwt_decode (tok : JwtToken) (key : String) (now : Nat) :
    Except JwtError Payload :=
  if tok.sig ≠ jwt_sign key tok.payload then .error .invalid
  else if tok.payload.exp ≤ now then .error .expired
  else .ok tok.payload

/-- create_access_token from app.py lines 238-246, specialised to the one
call site's data dict: expiry is now + expires_delta when a delta is passed,
else now + 15 minutes; the "sub" claim carries the given subject. -/
def create_access_token (sub : String) (now : Nat)
    (expires_delta : Option Nat) : JwtToken :=
  let expire :=
    match expires_delta with
    | some d => now + d
    | none => now + 15 * 60
  jwt_encode { sub := some sub, exp := expire } SECRET_KEY

/-- The single HTTPException raised for every token-resolution failure in
get_current_user (app.py lines 250-254). -/
def credentials_exception : HTTPError :=
  { status_code := 401, detail := "Could not validate credentials" }

/-- get_current_user from app.py lines 249-275: decode the bearer token
(any PyJWTError becomes the generic credentials_exception), require a
non-missing subject claim, then re-fetch the applicant_info row for that
subject; an unmapped subject is again the generic credentials_exception. -/
def get_current_user (db : AuthDB) (token : JwtToken) (now : Nat) :
    Except HTTPError InfoRow :=
  match jwt_decode token SECRET_KEY now with
  | .error _ => .error credentials_exception
  | .ok payload =>
    match payload.sub with
    | none => .error credentials_exception
    | some email =>
      match find_info db email with
      | none => .error credentials_exception
      | some user => .ok user

/-- The 401 raised by login_for_access_token when authenticate_user returns
a falsy value (app.py lines 283-288). -/
def invalid_credentials_error : HTTPError :=
  { status_code := 401, detail := "Incorrect email or password" }

/-- login_for_access_token from app.py lines 279-293: run
authenticate_user; a falsy result is the uniform 401; otherwise mint the
access token for the fetched applicant's email with a 30-minute delta.
The second component is the database state after the call. -/
def login_for_access_token (db : AuthDB) (now : Nat)
    (username password : String) : Except HTTPError JwtToken × AuthDB :=
  let res := authenticate_user db now username password
  match res.1 with
  | none => (.error invalid_credentials_error, res.2)
  | some user =>
    (.ok (create_access_token user.email now
      (some (ACCESS_TOKEN_EXPIRE_MINUTES * 60))), res.2)

/-- The registration request body: the email and password the session core
uses, with a name field standing for the remaining profile columns. -/
structure RegisterRequest where
  email : String
  first_name : String
  password : String
deriving DecidableEq, Repr

/-- register_applicant from app.py lines 303-336: insert the applicant_info
row, then the applicant_login row, then commit; a duplicate-key error
(errno 1062 — the unique-email constraint on the credential table, modelled
from the spec since the MySQL schema file is not under src/) rolls the whole
transaction back and surfaces HTTP 400; the auto-increment id is the row
count plus one.  The second component is the committed database state. -/
def register_applicant (db : AuthDB) (req : RegisterRequest) :
    Except HTTPError Unit × AuthDB :=
  let newInfo : InfoRow :=
    { applicant_id := db.infos.length + 1
      email := req.email
      first_name := req.first_name }
  if db.logins.any (fun l => l.email == req.email) then
    (.error { status_code := 400, detail := "Email already registered" }, db)
  else
    (.ok (),
     { infos := db.infos ++ [newInfo]
       logins := db.logins ++
         [{ email := req.email
            password_hash := get_password_hash req.password
            last_login := none }] })

/-- Row of the `admit_card` table: the columns create_admit_card writes
(the issuance timestamp and photo columns are filled by the database and
never read back by the allocator logic). -/
structure AdmitCardRow where
  applicant_id : Nat
  unit_id : Nat
  room_no : Option Nat
  exam_roll : Nat
deriving DecidableEq, Repr

/-- The AdmitCardCreate request body from app.py lines 129-136. -/
structure AdmitCardCreate where
  applicant_id : Nat
  unit_id : Nat
  room_no : Option Nat
deriving DecidableEq, Repr

/-- `SELECT MAX(exam_roll) FROM admit_card`: NULL on an empty table. -/
def max_roll_query : List AdmitCardRow → Option Nat
  | [] => none
  | r :: rs =>
    match max_roll_query rs with
    | none => some r.exam_roll
    | some m => some (max r.exam_roll m)

/-- Python `fetchone()["max_roll"] or 220430` (app.py line 573): a NULL
maximum (empty table) falls back to 220430, and so does a zero maximum,
because Python `or` treats 0 as falsy. -/
def py_or_default (m : Option Nat) : Nat :=
  match m with
  | none => 220430
  | some 0 => 220430
  | some r => r

/-- Lines 572-574 of app.py: the roll the allocator assigns next. -/
def new_exam_roll (t : List AdmitCardRow) : Nat :=
  py_or_default (max_roll_query t) + 1

/-- create_admit_card from app.py lines 564-603, run to completion with no
interference and against a table with no uniqueness constraint: read the
current maximum, insert the row with roll max+1, commit.  Returns the new
row and the committed table. -/
def create_admit_card (t : List AdmitCardRow) (req : AdmitCardCreate) :
    AdmitCardRow × List AdmitCardRow :=
  let roll := new_exam_roll t
  let row : AdmitCardRow :=
    { applicant_id := req.applicant_id
      unit_id := req.unit_id
      room_no := req.room_no
      exam_roll := roll }
  (row, t ++ [row])

/-- The generic HTTP 500 create_admit_card raises on any
mysql.connector.Error after rolling back (app.py lines 598-600). -/
def database_error_500 : HTTPError :=
  { status_code := 500, detail := "Database error" }

/-- Modelled from the spec: create_admit_card run against an admit_card
table carrying the one-card-per-applicant uniqueness constraint of spec
section 3 (the MySQL schema file is not under src/).  The source handler
wraps the whole body in a bare `except mysql.connector.Error` that rolls
back and raises the generic 500 — there is no DuplicateAdmitCard branch in
the source — so a duplicate-key error on insert surfaces as
`database_error_500` with the table unchanged. -/
def create_admit_card_one_per_applicant (t : List AdmitCardRow)
    (req : AdmitCardCreate) : Except HTTPError AdmitCardRow × List AdmitCardRow :=
  if t.any (fun r => r.applicant_id == req.applicant_id) then
    (.error database_error_500, t)
  else
    let res := create_admit_card t req
    (.ok res.1, res.2)

/-- Where a single in-flight create_admit_card request stands: before its
SELECT MAX, before its INSERT, finished, or failed (rolled back with the
generic 500 surfaced to its caller). -/
inductive CallPhase
  | toRead
  | toInsert
  | done
  | errored
deriving DecidableEq, Repr

/-- One in-flight create_admit_card request: its body, the roll candidate
its SELECT MAX produced (none until the read has run), its phase, and how
many INSERT statements it has executed so far. -/
structure AllocCall where
  req : AdmitCardCreate
  candidate : Option Nat
  phase : CallPhase
  attempts : Nat
deriving DecidableEq, Repr

/-- Shared state for interleaved create_admit_card requests: the admit_card
table and the in-flight calls. -/
structure AllocWorld where
  table : List AdmitCardRow
  calls : List AllocCall
deriving DecidableEq, Repr

/-- One interleaving step of call `i` of create_admit_card, which the source
runs with no transaction serialising the read against the insert.  The read
step executes SELECT MAX and computes the candidate roll (app.py lines
572-574); the insert step executes the single INSERT (lines 584-587).  `uc`
says whether the schema carries a uniqueness constraint on exam_roll
(modelled from the spec, the schema file being absent from src/): when it
does and the candidate roll is already taken, the source's handler rolls
back and surfaces the generic 500 — the call ends errored after that one
insert attempt, since the source has no retry loop. -/
def alloc_step (uc : Bool) (w : AllocWorld) (i : Nat) : AllocWorld :=
  match w.calls[i]? with
  | none => w
  | some c =>
    match c.phase with
    | .toRead =>
      let c2 : AllocCall :=
        { c with candidate := some (new_exam_roll w.table), phase := .toInsert }
      { w with calls := w.calls.set i c2 }
    | .toInsert =>
      match c.candidate with
      | none => w
      | some roll =>
        if uc && w.table.any (fun r => r.exam_roll == roll) then
          let c2 : AllocCall := { c with phase := .errored, attempts := c.attempts + 1 }
          { w with calls := w.calls.set i c2 }
        else
          let row : AdmitCardRow :=
            { applicant_id := c.req.applicant_id
              unit_id := c.req.unit_id
              room_no := c.req.room_no
              exam_roll := roll }
          let c2 : AllocCall := { c with phase := .done, attempts := c.attempts + 1 }
          { w with table := w.table ++ [row], calls := w.calls.set i c2 }
    | .done => w
    | .errored => w

/-- Run a whole interleaving: the schedule lists, in execution order, which
call takes the next step. -/
def run_schedule (uc : Bool) (w : AllocWorld) (sched : List Nat) : AllocWorld :=
  sched.foldl (alloc_step uc) w

/-- Two concurrent issuance requests for distinct applicants against an
empty admit_card table. -/
def race_world : AllocWorld :=
  { table := []
    calls :=
      [{ req := { applicant_id := 1, unit_id := 1, room_no := none }
         candidate := none, phase := .toRead, attempts := 0 },
       { req := { applicant_id := 2, unit_id := 1, room_no := none }
         candidate := none, phase := .toRead, attempts := 0 }] }

/-- The interleaving in which both calls run SELECT MAX before either runs
its INSERT. -/
def racy_schedule : List Nat := [0, 1, 0, 1]

/-- The SQL maximum of a non-empty table is attained by some row. -/
theorem max_roll_query_attained (t : List AdmitCardRow) (m : Nat)
    (h : max_roll_query t = some m) : ∃ r ∈ t, r.exam_roll = m := by
  induction t generalizing m with
  | nil => simp [max_roll_query] at h
  | cons r rs ih =>
    rw [max_roll_query] at h
    cases hrs : max_roll_query rs with
    | none =>
      rw [hrs] at h
      exact ⟨r, List.mem_cons_self r rs, by simpa using h⟩
    | some m2 =>
      rw [hrs] at h
      have hm : m = max r.exam_roll m2 := by simpa using h.symm
      rcases Nat.le_total m2 r.exam_roll with hle | hle
      · exact ⟨r, List.mem_cons_self r rs, by rw [hm, Nat.max_eq_left hle]⟩
      · obtain ⟨r2, hr2, he2⟩ := ih m2 hrs
        exact ⟨r2, List.mem_cons_of_mem r hr2, by rw [hm, Nat.max_eq_right hle, he2]⟩

/-- The Python or-idiom is the identity on a positive maximum. -/
theorem py_or_default_pos (m : Nat) (h : 0 < m) : py_or_default (some m) = m := by
  cases m with
  | zero => exact absurd h (by simp)
  | succ k => rfl

/-- Every row the allocator ever writes has a roll above the 220430 floor:
the floor invariant is preserved by each sequential issuance. -/
theorem create_admit_card_preserves_floor (t : List AdmitCardRow)
    (req : AdmitCardCreate) (hinv : ∀ r ∈ t, 220430 < r.exam_roll) :
    ∀ r ∈ (create_admit_card t req).2, 220430 < r.exam_roll := by
  intro r hr
  rw [create_admit_card] at hr
  simp only [List.mem_append, List.mem_singleton] at hr
  rcases hr with hr | hr
  · exact hinv r hr
  · subst hr
    simp only [new_exam_roll]
    cases hm : max_roll_query t with
    | none => simp [py_or_default]
    | some m =>
      obtain ⟨r2, hr2, he2⟩ := max_roll_query_attained t m hm
      have hmpos : 220430 < m := he2 ▸ hinv r2 hr2
      rw [py_or_default_pos m (Nat.lt_of_le_of_lt (Nat.zero_le _) hmpos)]
      omega

/-- Claim C2: on any table satisfying the allocator's floor invariant, the
roll assigned by create_admit_card is 220431 when no admit cards exist, and
one more than the current maximum roll otherwise. -/
theorem create_admit_card_roll_formula (t : List AdmitCardRow)
    (req : AdmitCardCreate) (hinv : ∀ r ∈ t, 220430 < r.exam_roll) :
    (t = [] → (create_admit_card t req).1.exam_roll = 220431) ∧
    (∀ m, max_roll_query t = some m →
      (create_admit_card t req).1.exam_roll = m + 1) := by
  constructor
  · intro h
    subst h
    rfl
  · intro m hm
    obtain ⟨r, hr, he⟩ := max_roll_query_attained t m hm
    have hmpos : 0 < m :=
      Nat.lt_of_le_of_lt (Nat.zero_le _) (he ▸ hinv r hr)
    show new_exam_roll t = m + 1
    rw [new_exam_roll, hm, py_or_default_pos m hmpos]

/-- Concrete check of the C2 theorem: the first issuance gets roll 220431,
and an issuance against a table whose maximum roll is 220431 gets 220432. -/
theorem create_admit_card_roll_formula_check :
    ((create_admit_card []
        { applicant_id := 4, unit_id := 1, room_no := none }).1.exam_roll = 220431) ∧
    (∀ r ∈ [({ applicant_id := 3, unit_id := 1, room_no := none,
               exam_roll := 220431 } : AdmitCardRow)], 220430 < r.exam_roll) ∧
    ((create_admit_card
        [{ applicant_id := 3, unit_id := 1, room_no := none, exam_roll := 220431 }]
        { applicant_id := 4, unit_id := 1, room_no := none }).1.exam_roll =
      220431 + 1) :=
  ⟨(create_admit_card_roll_formula []
      { applicant_id := 4, unit_id := 1, room_no := none } (by decide)).1 rfl,
   by decide,
   (create_admit_card_roll_formula
      [{ applicant_id := 3, unit_id := 1, room_no := none, exam_roll := 220431 }]
      { applicant_id := 4, unit_id := 1, room_no := none } (by decide)).2
      220431 (by decide)⟩

/-- Claim C1 (refuting evidence): two concurrent issuances for distinct
applicants against an empty admit_card table, interleaved so both SELECT
MAX run before either INSERT (the source serialises nothing between the
two), produce two admit cards that both carry roll 220431 — a duplicate —
instead of the claimed rolls 220431 and 220432. -/
theorem create_admit_card_race_duplicates :
    ((run_schedule false race_world racy_schedule).table.map
        (fun r => r.exam_roll) = [220431, 220431]) ∧
    ¬ ((run_schedule false race_world racy_schedule).table.map
        (fun r => r.exam_roll)).Nodup ∧
    ((run_schedule false race_world racy_schedule).table.map
        (fun r => r.exam_roll) ≠ [220431, 220432]) ∧
    ((run_schedule false race_world racy_schedule).table.map
        (fun r => r.exam_roll) ≠ [220432, 220431]) := by
  refine ⟨rfl, by decide, by decide, by decide⟩

/-- Claim C3 (refuting evidence): under the spec's uniqueness constraint on
the roll column, the same race interleaving makes the second call's single
INSERT hit a duplicate-key conflict; the source then surfaces the error to
the caller at once — the losing call ends errored after exactly one insert
attempt, with no retry of the read-compute-insert cycle, and only one card
results. -/
theorem create_admit_card_no_retry_on_conflict :
    ((run_schedule true race_world racy_schedule).calls[1]? =
      some { req := { applicant_id := 2, unit_id := 1, room_no := none }
             candidate := some 220431
             phase := .errored
             attempts := 1 }) ∧
    ((run_schedule true race_world racy_schedule).table.map
        (fun r => r.exam_roll) = [220431]) := by
  exact ⟨rfl, rfl⟩

/-- Claim C4 (refuting evidence): with applicant 7 already holding the card
with roll 220431, a second issuance for applicant 7 (exam unit 2) does not
fail with any DuplicateAdmitCard error: against an unconstrained table the
source simply creates a second card for the same applicant with roll
220432, and against the spec-modelled one-card-per-applicant constraint the
source surfaces its generic HTTP 500 database error (leaving the existing
card unchanged) — no DuplicateAdmitCard branch exists in the handler. -/
theorem second_issuance_not_duplicate_error :
    ((create_admit_card
        [{ applicant_id := 7, unit_id := 1, room_no := some 101, exam_roll := 220431 }]
        { applicant_id := 7, unit_id := 2, room_no := some 202 }).2 =
      [{ applicant_id := 7, unit_id := 1, room_no := some 101, exam_roll := 220431 },
       { applicant_id := 7, unit_id := 2, room_no := some 202, exam_roll := 220432 }]) ∧
    ((create_admit_card
        [{ applicant_id := 7, unit_id := 1, room_no := some 101, exam_roll := 220431 }]
        { applicant_id := 7, unit_id := 2, room_no := some 202 }).2.countP
        (fun r => r.applicant_id == 7) = 2) ∧
    ((create_admit_card_one_per_applicant
        [{ applicant_id := 7, unit_id := 1, room_no := some 101, exam_roll := 220431 }]
        { applicant_id := 7, unit_id := 2, room_no := some 202 }).1 =
      .error database_error_500) ∧
    ((create_admit_card_one_per_applicant
        [{ applicant_id := 7, unit_id := 1, room_no := some 101, exam_roll := 220431 }]
        { applicant_id := 7, unit_id := 2, room_no := some 202 }).2 =
      [{ applicant_id := 7, unit_id := 1, room_no := some 101, exam_roll := 220431 }]) := by
  exact ⟨rfl, rfl, rfl, rfl⟩

/-- Claim C5: registering an email that already has a credential fails with
the duplicate-identity client error (HTTP 400) and leaves the database —
hence the single existing credential record — untouched; and every
register_applicant call is atomic: the final state is either exactly the
initial state or exactly the initial state with both the applicant_info row
and the applicant_login row appended. -/
theorem register_applicant_duplicate_and_atomic (db : AuthDB)
    (req : RegisterRequest) :
    ((∃ l ∈ db.logins, l.email = req.email) →
      (register_applicant db req).1 =
        .error { status_code := 400, detail := "Email already registered" } ∧
      (register_applicant db req).2 = db) ∧
    ((register_applicant db req).2 = db ∨
     (register_applicant db req).2 =
       { infos := db.infos ++
           [{ applicant_id := db.infos.length + 1
              email := req.email
              first_name := req.first_name }]
         logins := db.logins ++
           [{ email := req.email
              password_hash := get_password_hash req.password
              last_login := none }] }) := by
  constructor
  · rintro ⟨l, hl, he⟩
    have hany : db.logins.any (fun l => l.email == req.email) = true :=
      List.any_eq_true.mpr ⟨l, hl, by simp [he]⟩
    constructor <;> simp [register_applicant, hany]
  · by_cases hany : db.logins.any (fun l => l.email == req.email) = true
    · left
      simp [register_applicant, hany]
    · right
      simp [register_applicant, hany]

/-- A database holding one registered applicant, "a@x.com" with password
"pw1", as produced by a successful registration. -/
def db_one_user : AuthDB :=
  { infos := [{ applicant_id := 1, email := "a@x.com", first_name := "Ada" }]
    logins := [{ email := "a@x.com", password_hash := get_password_hash "pw1"
                 last_login := none }] }

/-- Concrete check of the C5 theorem: re-registering "a@x.com" yields the
400 duplicate error and leaves the single credential record in place. -/
theorem register_applicant_duplicate_check :
    (∃ l ∈ db_one_user.logins, l.email = "a@x.com") ∧
    (register_applicant db_one_user
        { email := "a@x.com", first_name := "Ada", password := "pw2" }).1 =
      .error { status_code := 400, detail := "Email already registered" } ∧
    (register_applicant db_one_user
        { email := "a@x.com", first_name := "Ada", password := "pw2" }).2 =
      db_one_user :=
  ⟨by decide,
   (register_applicant_duplicate_and_atomic db_one_user
     { email := "a@x.com", first_name := "Ada", password := "pw2" }).1 (by decide)⟩

/-- Claim C6: every failing authentication — no credential for the email,
or a stored digest differing from the digest of the supplied password —
surfaces the one identical InvalidCredentials error (HTTP 401, "Incorrect
email or password"), with nothing distinguishing the two causes. -/
theorem login_failure_uniform (db : AuthDB) (now : Nat)
    (email password : String)
    (h : find_login db email = none ∨
         ∃ l, find_login db email = some l ∧
           get_password_hash password ≠ l.password_hash) :
    (login_for_access_token db now email password).1 =
      .error invalid_credentials_error := by
  rcases h with h | ⟨l, hl, hne⟩
  · rw [login_for_access_token, authenticate_user, h]
  · have hv : verify_password password l.password_hash = false := by
      rw [verify_password]
      exact beq_eq_false_iff_ne.mpr hne
    simp [login_for_access_token, authenticate_user, hl, hv]

/-- Concrete check of the C6 theorem: against `db_one_user`, an unknown
email and a wrong password for the known email produce the same error. -/
theorem login_failure_uniform_check :
    ((find_login db_one_user "b@x.com" = none) ∧
     (login_for_access_token db_one_user 0 "b@x.com" "pw1").1 =
       .error invalid_credentials_error) ∧
    ((find_login db_one_user "a@x.com" =
        some { email := "a@x.com", password_hash := get_password_hash "pw1"
               last_login := none } ∧
      get_password_hash "pw2" ≠ get_password_hash "pw1") ∧
     (login_for_access_token db_one_user 0 "a@x.com" "pw2").1 =
       .error invalid_credentials_error) :=
  ⟨⟨by decide, login_failure_uniform db_one_user 0 "b@x.com" "pw1"
      (Or.inl (by decide))⟩,
   ⟨⟨by decide, by decide⟩,
    login_failure_uniform db_one_user 0 "a@x.com" "pw2"
      (Or.inr ⟨{ email := "a@x.com", password_hash := get_password_hash "pw1"
                 last_login := none }, by decide, by decide⟩)⟩⟩

/-- Claim C9: every token minted by a successful authentication carries the
authenticated email as its subject claim and expires exactly 30 minutes
(the fixed ACCESS_TOKEN_EXPIRE_MINUTES) after the authentication instant. -/
theorem login_token_subject_and_expiry (db : AuthDB) (now : Nat)
    (email password : String) (tok : JwtToken)
    (h : (login_for_access_token db now email password).1 = .ok tok) :
    tok.payload.sub = some email ∧
    tok.payload.exp = now + ACCESS_TOKEN_EXPIRE_MINUTES * 60 := by
  rw [login_for_access_token, authenticate_user] at h
  cases hfl : find_login db email with
  | none =>
    rw [hfl] at h
    simp at h
  | some l =>
    rw [hfl] at h
    by_cases hv : verify_password password l.password_hash = true
    · cases hfi : find_info (update_last_login db email now) email with
      | none =>
        simp [hv, hfi] at h
      | some u =>
        simp only [hv, if_true, hfi, Except.ok.injEq] at h
        have hfi2 : (update_last_login db email now).infos.find?
            (fun r => r.email == email) = some u := hfi
        have hu : u.email = email := by
          have hbeq := List.find?_some hfi2
          simpa using hbeq
        rw [← h, create_access_token, jwt_encode, hu]
        exact ⟨rfl, rfl⟩
    · simp [hv] at h

/-- Concrete check of the C9 theorem: authenticating "a@x.com" at instant
1000 mints a token with subject "a@x.com" expiring at 1000 + 1800. -/
theorem login_token_subject_and_expiry_check :
    ((login_for_access_token db_one_user 1000 "a@x.com" "pw1").1 =
      .ok (create_access_token "a@x.com" 1000
        (some (ACCESS_TOKEN_EXPIRE_MINUTES * 60)))) ∧
    ((create_access_token "a@x.com" 1000
        (some (ACCESS_TOKEN_EXPIRE_MINUTES * 60))).payload.sub = some "a@x.com" ∧
     (create_access_token "a@x.com" 1000
        (some (ACCESS_TOKEN_EXPIRE_MINUTES * 60))).payload.exp =
       1000 + ACCESS_TOKEN_EXPIRE_MINUTES * 60) :=
  ⟨rfl,
   login_token_subject_and_expiry db_one_user 1000 "a@x.com" "pw1"
     (create_access_token "a@x.com" 1000
       (some (ACCESS_TOKEN_EXPIRE_MINUTES * 60))) rfl⟩

/-- Claim C10: when the credential row exists and the digest matches but no
applicant_info row exists for the email, authenticate_user still updates
and commits the credential's last_login timestamp before discovering the
missing identity, and then returns a falsy result — the caller gets the
generic 401 while the timestamp mutation persists. -/
theorem authenticate_orphan_commits_last_login (db : AuthDB) (now : Nat)
    (email password : String) (l : LoginRow)
    (hl : find_login db email = some l)
    (hpw : get_password_hash password = l.password_hash)
    (hinfo : find_info db email = none) :
    (authenticate_user db now email password).1 = none ∧
    (authenticate_user db now email password).2 = update_last_login db email now ∧
    (∃ l2 ∈ (authenticate_user db now email password).2.logins,
      l2.email = email ∧ l2.last_login = some now) ∧
    (login_for_access_token db now email password).1 =
      .error invalid_credentials_error := by
  have hv : verify_password password l.password_hash = true := by
    rw [verify_password, hpw]
    exact beq_self_eq_true l.password_hash
  have hinfo2 : find_info (update_last_login db email now) email = none := hinfo
  have h1 : (authenticate_user db now email password).1 = none := by
    rw [authenticate_user, hl]
    simp [hv, hinfo2]
  have h2 : (authenticate_user db now email password).2 =
      update_last_login db email now := by
    rw [authenticate_user, hl]
    simp [hv]
  refine ⟨h1, h2, ?_, ?_⟩
  · have hl2 : db.logins.find? (fun x => x.email == email) = some l := hl
    have hle : l.email = email := by
      have hbeq := List.find?_some hl2
      simpa using hbeq
    have hmem : l ∈ db.logins := List.mem_of_find?_eq_some hl2
    refine ⟨{ l with last_login := some now }, ?_, hle, rfl⟩
    rw [h2, update_last_login]
    have : ({ l with last_login := some now } : LoginRow) =
        (fun l => if l.email == email then
          { l with last_login := some now } else l) l := by
      simp [hle]
    rw [this]
    exact List.mem_map_of_mem _ hmem
  · rw [login_for_access_token]
    rw [h1]

/-- A database whose single credential "a@x.com" has no matching
applicant_info row. -/
def db_orphan_credential : AuthDB :=
  { infos := []
    logins := [{ email := "a@x.com", password_hash := get_password_hash "pw1"
                 last_login := none }] }

/-- Concrete check of the C10 theorem: logging in as the orphaned
credential at instant 5 fails with the generic 401, yet the stored
last_login becomes 5. -/
theorem authenticate_orphan_commits_check :
    (find_login db_orphan_credential "a@x.com" =
      some { email := "a@x.com", password_hash := get_password_hash "pw1"
             last_login := none } ∧
     get_password_hash "pw1" = get_password_hash "pw1" ∧
     find_info db_orphan_credential "a@x.com" = none) ∧
    ((∃ l2 ∈ (authenticate_user db_orphan_credential 5 "a@x.com" "pw1").2.logins,
        l2.email = "a@x.com" ∧ l2.last_login = some 5) ∧
     (login_for_access_token db_orphan_credential 5 "a@x.com" "pw1").1 =
       .error invalid_credentials_error) :=
  ⟨⟨by decide, rfl, by decide⟩,
   ⟨(authenticate_orphan_commits_last_login db_orphan_credential 5 "a@x.com" "pw1"
       { email := "a@x.com", password_hash := get_password_hash "pw1"
         last_login := none } (by decide) rfl (by decide)).2.2.1,
    (authenticate_orphan_commits_last_login db_orphan_credential 5 "a@x.com" "pw1"
       { email := "a@x.com", password_hash := get_password_hash "pw1"
         last_login := none } (by decide) rfl (by decide)).2.2.2⟩⟩

/-- A correctly signed token with the given subject and expiry, as
create_access_token mints it. -/
def signed_token (s : String) (e : Nat) : JwtToken :=
  jwt_encode { sub := some s, exp := e } SECRET_KEY

/-- Claim C8: resolving a well-formed token strictly before its expiry
instant succeeds with the applicant mapped to its subject; resolving it at
or after the expiry instant fails, the decode step reporting the expired
cause; a token failing the integrity check fails, the decode step reporting
the invalid cause; and a well-formed unexpired token whose subject maps to
no applicant fails with the same credentials error.  (The endpoint reports
every failure as the one generic 401, as the spec's error taxonomy
prescribes; the underlying decode distinguishes the causes.) -/
theorem resolve_expiry_and_integrity (db : AuthDB) (s : String)
    (e now : Nat) :
    ((now < e → ∀ u, find_info db s = some u →
        get_current_user db (signed_token s e) now = .ok u) ∧
     (e ≤ now →
        jwt_decode (signed_token s e) SECRET_KEY now = .error JwtError.expired ∧
        get_current_user db (signed_token s e) now =
          .error credentials_exception)) ∧
    ((∀ t : JwtToken, t.sig ≠ jwt_sign SECRET_KEY t.payload →
        jwt_decode t SECRET_KEY now = .error JwtError.invalid ∧
        get_current_user db t now = .error credentials_exception) ∧
     (now < e → find_info db s = none →
        get_current_user db (signed_token s e) now =
          .error credentials_exception)) := by
  have hsig : (signed_token s e).sig = jwt_sign SECRET_KEY (signed_token s e).payload := rfl
  refine ⟨⟨?_, ?_⟩, ?_, ?_⟩
  · intro hlt u hu
    have hdec : jwt_decode (signed_token s e) SECRET_KEY now =
        .ok (signed_token s e).payload := by
      rw [jwt_decode, if_neg (by rw [hsig]; simp), if_neg (by simpa using hlt)]
    rw [get_current_user, hdec]
    show (match find_info db s with
      | none => (.error credentials_exception : Except HTTPError InfoRow)
      | some user => .ok user) = .ok u
    rw [hu]
  · intro hge
    have hdec : jwt_decode (signed_token s e) SECRET_KEY now =
        .error JwtError.expired := by
      rw [jwt_decode, if_neg (by rw [hsig]; simp)]
      simpa using hge
    exact ⟨hdec, by rw [get_current_user, hdec]⟩
  · intro t ht
    have hdec : jwt_decode t SECRET_KEY now = .error JwtError.invalid := by
      rw [jwt_decode, if_pos ht]
    exact ⟨hdec, by rw [get_current_user, hdec]⟩
  · intro hlt hu
    have hdec : jwt_decode (signed_token s e) SECRET_KEY now =
        .ok (signed_token s e).payload := by
      rw [jwt_decode, if_neg (by rw [hsig]; simp), if_neg (by simpa using hlt)]
    rw [get_current_user, hdec]
    show (match find_info db s with
      | none => (.error credentials_exception : Except HTTPError InfoRow)
      | some user => .ok user) = .error credentials_exception
    rw [hu]

/-- Concrete check of the C8 theorem: against db_one_user and a token for
"a@x.com" expiring at instant 2800, resolution at 2000 succeeds, resolution
at 2800 fails expired, a token with a corrupted signature fails invalid,
and an unexpired token for the unregistered "z@x.com" fails with the same
generic error. -/
theorem resolve_expiry_and_integrity_check :
    ((2000 < 2800) ∧
     get_current_user db_one_user (signed_token "a@x.com" 2800) 2000 =
       .ok { applicant_id := 1, email := "a@x.com", first_name := "Ada" }) ∧
    ((2800 ≤ 2800) ∧
     jwt_decode (signed_token "a@x.com" 2800) SECRET_KEY 2800 =
       .error JwtError.expired ∧
     get_current_user db_one_user (signed_token "a@x.com" 2800) 2800 =
       .error credentials_exception) ∧
    (({ payload := { sub := some "a@x.com", exp := 2800 }, sig := 0 } : JwtToken).sig ≠
       jwt_sign SECRET_KEY
         ({ payload := { sub := some "a@x.com", exp := 2800 }, sig := 0 } : JwtToken).payload ∧
     jwt_decode { payload := { sub := some "a@x.com", exp := 2800 }, sig := 0 }
       SECRET_KEY 2000 = .error JwtError.invalid ∧
     get_current_user db_one_user
       { payload := { sub := some "a@x.com", exp := 2800 }, sig := 0 } 2000 =
       .error credentials_exception) ∧
    ((2000 < 2800) ∧ find_info db_one_user "z@x.com" = none ∧
     get_current_user db_one_user (signed_token "z@x.com" 2800) 2000 =
       .error credentials_exception) :=
  ⟨⟨by decide,
    (resolve_expiry_and_integrity db_one_user "a@x.com" 2800 2000).1.1
      (by decide) { applicant_id := 1, email := "a@x.com", first_name := "Ada" } rfl⟩,
   ⟨by decide,
    (resolve_expiry_and_integrity db_one_user "a@x.com" 2800 2800).1.2 (by decide)⟩,
   ⟨by decide,
    (resolve_expiry_and_integrity db_one_user "a@x.com" 2800 2000).2.1
      { payload := { sub := some "a@x.com", exp := 2800 }, sig := 0 } (by decide)⟩,
   ⟨by decide, rfl,
    (resolve_expiry_and_integrity db_one_user "z@x.com" 2800 2000).2.2
      (by decide) rfl⟩⟩

/-- Claim C7: registering a fresh email and then authenticating with the
correct password always succeeds, and resolving the returned token before
its expiry (against the post-login database) yields an applicant identity
whose email is the authenticated email. -/
theorem register_login_resolve_roundtrip (db : AuthDB) (req : RegisterRequest)
    (now1 now2 : Nat)
    (hfl : ∀ l ∈ db.logins, l.email ≠ req.email)
    (hfi : ∀ r ∈ db.infos, r.email ≠ req.email)
    (hexp : now2 < now1 + ACCESS_TOKEN_EXPIRE_MINUTES * 60) :
    ∃ tok u,
      (login_for_access_token (register_applicant db req).2 now1
        req.email req.password).1 = .ok tok ∧
      get_current_user (login_for_access_token (register_applicant db req).2 now1
        req.email req.password).2 tok now2 = .ok u ∧
      u.email = req.email := by
  have hany : db.logins.any (fun l => l.email == req.email) = false :=
    List.any_eq_false.mpr (fun x hx => by simpa using hfl x hx)
  have hreg : (register_applicant db req).2 =
      { infos := db.infos ++
          [{ applicant_id := db.infos.length + 1
             email := req.email
             first_name := req.first_name }]
        logins := db.logins ++
          [{ email := req.email
             password_hash := get_password_hash req.password
             last_login := none }] } := by
    simp [register_applicant, hany]
  have hfind_login : find_login (register_applicant db req).2 req.email =
      some { email := req.email, password_hash := get_password_hash req.password
             last_login := none } := by
    rw [find_login, hreg]
    rw [List.find?_append]
    have h1 : db.logins.find? (fun l => l.email == req.email) = none :=
      List.find?_eq_none.mpr (fun x hx => by simpa using hfl x hx)
    rw [h1]
    simp
  have hfind_info : find_info
      (update_last_login (register_applicant db req).2 req.email now1) req.email =
      some { applicant_id := db.infos.length + 1
             email := req.email
             first_name := req.first_name } := by
    rw [find_info]
    have hinfos :
        (update_last_login (register_applicant db req).2 req.email now1).infos =
        db.infos ++
          [{ applicant_id := db.infos.length + 1
             email := req.email
             first_name := req.first_name }] := by
      rw [hreg]
      rfl
    rw [hinfos, List.find?_append]
    have h1 : db.infos.find? (fun r => r.email == req.email) = none :=
      List.find?_eq_none.mpr (fun x hx => by simpa using hfi x hx)
    rw [h1]
    simp
  have hauth : authenticate_user (register_applicant db req).2 now1
      req.email req.password =
      (some { applicant_id := db.infos.length + 1
              email := req.email
              first_name := req.first_name },
       update_last_login (register_applicant db req).2 req.email now1) := by
    rw [authenticate_user, hfind_login]
    simp [verify_password, hfind_info]
  have hlogin : login_for_access_token (register_applicant db req).2 now1
      req.email req.password =
      (.ok (create_access_token req.email now1
          (some (ACCESS_TOKEN_EXPIRE_MINUTES * 60))),
       update_last_login (register_applicant db req).2 req.email now1) := by
    simp [login_for_access_token, hauth]
  have hdec : jwt_decode (create_access_token req.email now1
      (some (ACCESS_TOKEN_EXPIRE_MINUTES * 60))) SECRET_KEY now2 =
      .ok ({ sub := some req.email
             exp := now1 + ACCESS_TOKEN_EXPIRE_MINUTES * 60 } : Payload) := by
    show jwt_decode (jwt_encode
      { sub := some req.email, exp := now1 + ACCESS_TOKEN_EXPIRE_MINUTES * 60 }
      SECRET_KEY) SECRET_KEY now2 = _
    rw [jwt_decode]
    rw [if_neg (by simp [jwt_encode])]
    rw [show (jwt_encode
        { sub := some req.email, exp := now1 + ACCESS_TOKEN_EXPIRE_MINUTES * 60 }
        SECRET_KEY).payload.exp = now1 + ACCESS_TOKEN_EXPIRE_MINUTES * 60 from rfl]
    rw [if_neg (Nat.not_le.mpr hexp)]
    rfl
  refine ⟨create_access_token req.email now1
      (some (ACCESS_TOKEN_EXPIRE_MINUTES * 60)),
    { applicant_id := db.infos.length + 1
      email := req.email
      first_name := req.first_name }, ?_, ?_, rfl⟩
  · rw [hlogin]
  · rw [hlogin]
    simp only [get_current_user, hdec, hfind_info]

/-- Concrete check of the C7 theorem: register "a@x.com"/"pw1" into an
empty database at instant 1000, authenticate, and resolve the token at
instant 2000 — the resolved identity's email is "a@x.com". -/
theorem register_login_resolve_roundtrip_check :
    ((∀ l ∈ (AuthDB.mk [] []).logins, l.email ≠ "a@x.com") ∧
     (∀ r ∈ (AuthDB.mk [] []).infos, r.email ≠ "a@x.com") ∧
     2000 < 1000 + ACCESS_TOKEN_EXPIRE_MINUTES * 60) ∧
    (∃ tok u,
      (login_for_access_token
        (register_applicant (AuthDB.mk [] [])
          { email := "a@x.com", first_name := "Ada", password := "pw1" }).2
        1000 "a@x.com" "pw1").1 = .ok tok ∧
      get_current_user
        (login_for_access_token
          (register_applicant (AuthDB.mk [] [])
            { email := "a@x.com", first_name := "Ada", password := "pw1" }).2
          1000 "a@x.com" "pw1").2 tok 2000 = .ok u ∧
      u.email = "a@x.com") :=
  ⟨⟨by decide, by decide, by decide⟩,
   register_login_resolve_roundtrip (AuthDB.mk [] [])
     { email := "a@x.com", first_name := "Ada", password := "pw1" }
     1000 2000 (by decide) (by decide) (by decide)⟩

end AdmissionDB
